import Mathlib

/-
  Verification of the authentication/authorization core of the
  Social_Media_With_Golang backend (Go, echo + gorm + golang-jwt v4).

  Shallow embedding of:
  - internal/models/user.go        (User, JwtCustomClaims, CreateLocalUserRequest)
  - internal/repositories/user_repository.go
      (PostgresUserRepository lookups, create/update, counter increments
       and guarded decrements)
  - internal/handlers/auth.go      (Signup, SignIn, FirebaseLogin, generateJWT)
  - internal/middleware/jwt_auth.go (JWTAuthMiddleware verification and
       context injection)
  - internal/handlers user.go part (getUserIDFromContext)

  The credential store is modelled as the users table: a list of rows in
  primary-key (insertion) order; gorm First with a WHERE clause returns the
  first matching row in that order, Create appends with the next
  auto-increment id, Save replaces the row with the same primary key.
  JWT tokens are modelled structurally: an HS256 token records the claims
  it carries and the secret its signature was produced with; signature
  verification succeeds exactly when the verifying secret equals the
  signing secret.
-/

/-- models.JwtCustomClaims: UserID, Email plus the RegisteredClaims
expiry and issued-at timestamps (unix seconds). -/
structure JwtCustomClaims where
  userID : Nat
  email : String
  expiresAt : Int
  issuedAt : Int
  deriving Repr, DecidableEq

/-- models.User: the fields consumed by the auth core (id, name, email,
age, password hash, firebase uid) together with the denormalized counters
maintained by PostgresUserRepository. -/
structure User where
  id : Nat
  name : String
  email : String
  age : Int
  password : String
  firebaseUID : String
  followersCount : Int
  followingCount : Int
  postsCount : Int
  deriving Repr, DecidableEq

/-- The users table in primary-key order. -/
abbrev Store := List User

/-- PostgresUserRepository.GetUserByFirebaseUID: WHERE firebase_uid = ?,
First — the first matching row, or gorm.ErrRecordNotFound. -/
def getUserByFirebaseUID (s : Store) (uid : String) : Option User :=
  s.find? (fun u => u.firebaseUID == uid)

/-- PostgresUserRepository.GetUserByEmail: WHERE email = ?, First. -/
def getUserByEmail (s : Store) (email : String) : Option User :=
  s.find? (fun u => u.email == email)

/-- The next auto-increment primary key of the users table. -/
def nextId (s : Store) : Nat :=
  (s.map User.id).foldr max 0 + 1

/-- PostgresUserRepository.CreateUser: INSERT, assigning the
auto-increment id; returns the stored row and the new table. -/
def createUser (s : Store) (u : User) : User × Store :=
  let u' := { u with id := nextId s }
  (u', s ++ [u'])

/-- PostgresUserRepository.UpdateUser: gorm Save — replace the row whose
primary key equals the id of the given record. This is the UPDATE as it
commits; updateUserPg below adds the unique-index checks of the Postgres
schema. -/
def updateUser (s : Store) (u : User) : Store :=
  s.map (fun v => if v.id == u.id then u else v)

/-- Whether some row other than the one with the given primary key
already holds this email: the unique email index of models/user.go
(gorm uniqueIndex tag), created by AutoMigrate at router.go line 27. -/
def emailTaken (s : Store) (selfId : Nat) (email : String) : Bool :=
  s.any (fun v => v.id != selfId && v.email == email)

/-- Whether some row other than the one with the given primary key
already holds this firebase uid: the unique firebase_uid index of
models/user.go, created by AutoMigrate. -/
def uidTaken (s : Store) (selfId : Nat) (uid : String) : Bool :=
  s.any (fun v => v.id != selfId && v.firebaseUID == uid)

/-- gorm Save against the Postgres store: the UPDATE commits only when
the written email and firebase uid collide with no other row under the
unique indexes; otherwise it fails with a duplicate-key error. -/
def updateUserPg (s : Store) (u : User) : Except Unit Store :=
  if emailTaken s u.id u.email || uidTaken s u.id u.firebaseUID then .error ()
  else .ok (updateUser s u)

/-- gorm Create against the Postgres store: the INSERT of the new row
(under its auto-increment id) commits only when its email and firebase
uid collide with no existing row under the unique indexes. -/
def createUserPg (s : Store) (u : User) : Except Unit (User × Store) :=
  let u2 := { u with id := nextId s }
  if emailTaken s u2.id u2.email || uidTaken s u2.id u2.firebaseUID then .error ()
  else .ok (u2, s ++ [u2])

/-- A JSON claim value inside the claims map of a verified firebase token. -/
inductive ClaimVal where
  | str (s : String)
  | num (n : Int)
  | boolean (b : Bool)
  deriving Repr, DecidableEq

/-- auth.Token: a verified firebase ID token — its UID and claims map. -/
structure FirebaseToken where
  uid : String
  claims : List (String × ClaimVal)
  deriving Repr, DecidableEq

/-- Map lookup in the claims map (Go map indexing: zero value when the
key is absent, here Option). -/
def claimsLookup (m : List (String × ClaimVal)) (k : String) : Option ClaimVal :=
  (m.find? (fun p => p.1 == k)).map Prod.snd

/-- Go type assertion v.(string) on a claims-map value: some when the
entry exists and is a string. For the unchecked one-result form, none is
a run-time panic; for the checked two-result form, none is ok = false. -/
def goAssertString : Option ClaimVal → Option String
  | some (.str s) => some s
  | _ => none

/-- Which reconciliation branch FirebaseLogin took. -/
inductive Branch where
  | byUID
  | byEmail
  | created
  deriving Repr, DecidableEq

/-- Identity reconciliation block of handlers.FirebaseLogin
(auth.go lines 191-232), given the extracted firebase uid, email and
display name: lookup by firebase uid first (refresh email, and name when
non-empty, then Save); otherwise lookup by email (attach the firebase
uid, then Save); otherwise create a new user with the extracted fields,
age 0 and no password hash. Returns the branch taken, the resolved user
and the updated store. -/
def reconcile (uid email name : String) (s : Store) : Branch × User × Store :=
  match getUserByFirebaseUID s uid with
  | some user =>
    let user' := { user with
      email := email,
      name := if name != "" then name else user.name }
    (.byUID, user', updateUser s user')
  | none =>
    match getUserByEmail s email with
    | some user =>
      let user' := { user with firebaseUID := uid }
      (.byEmail, user', updateUser s user')
    | none =>
      let c := createUser s
        { id := 0, name := name, email := email, age := 0, password := "",
          firebaseUID := uid, followersCount := 0, followingCount := 0,
          postsCount := 0 }
      (.created, c.1, c.2)

/-- Outcome of the FirebaseLogin handler after token verification:
either the claim-extraction panic, or a resolved user (with the branch
taken). -/
inductive FLOutcome where
  | panicked
  | ok (b : Branch) (u : User)
  deriving Repr, DecidableEq

/-- handlers.FirebaseLogin (auth.go lines 179-241) after successful
firebase verification: the unchecked assertion
on the "email" entry of token.Claims — modelled so that a missing or
non-string email entry is the panic outcome — the checked assertion for
"name" defaulting to the empty string, then the reconciliation block.
The store writes are taken as committing; firebaseLoginPg below runs the
same handler code with the unique-index checks on every write. -/
def firebaseLogin (tok : FirebaseToken) (s : Store) : FLOutcome × Store :=
  match goAssertString (claimsLookup tok.claims "email") with
  | none => (.panicked, s)
  | some email =>
    let name := match goAssertString (claimsLookup tok.claims "name") with
      | some n => n
      | none => ""
    let r := reconcile tok.uid email name s
    (.ok r.1 r.2.1, r.2.2)

/-- Outcome of the FirebaseLogin handler against the Postgres store:
the claim-extraction panic, an echo HTTPError from a failed store
write, or a resolved user (with the branch taken). -/
inductive FLPgOutcome where
  | panicked
  | httpError (status : Nat) (message : String)
  | ok (b : Branch) (u : User)
  deriving Repr, DecidableEq

/-- handlers.FirebaseLogin (auth.go lines 179-241) against the Postgres
store: as firebaseLogin, but every UpdateUser / CreateUser call is
checked against the unique email and firebase_uid indexes; a violation
surfaces as the corresponding 500 response of auth.go lines 207, 217
and 230, with the store unchanged. -/
def firebaseLoginPg (tok : FirebaseToken) (s : Store) : FLPgOutcome × Store :=
  match goAssertString (claimsLookup tok.claims "email") with
  | none => (.panicked, s)
  | some email =>
    let name := match goAssertString (claimsLookup tok.claims "name") with
      | some n => n
      | none => ""
    match getUserByFirebaseUID s tok.uid with
    | some user =>
      let user2 := { user with
        email := email,
        name := if name != "" then name else user.name }
      match updateUserPg s user2 with
      | .error _ => (.httpError 500 "Failed to update user details", s)
      | .ok s2 => (.ok .byUID user2, s2)
    | none =>
      match getUserByEmail s email with
      | some user =>
        let user2 := { user with firebaseUID := tok.uid }
        match updateUserPg s user2 with
        | .error _ => (.httpError 500 "Failed to update user with Firebase UID", s)
        | .ok s2 => (.ok .byEmail user2, s2)
      | none =>
        match createUserPg s
            { id := 0, name := name, email := email, age := 0, password := "",
              firebaseUID := tok.uid, followersCount := 0, followingCount := 0,
              postsCount := 0 } with
        | .error _ => (.httpError 500 "Failed to create user", s)
        | .ok c => (.ok .created c.1, c.2)

/-- A structurally well-formed HS256 session token: the embedded claims
and the secret its signature was produced with. -/
structure SignedToken where
  userID : Nat
  email : String
  expiresAt : Int
  issuedAt : Int
  secret : String
  deriving Repr, DecidableEq

/-- handlers.generateJWT (auth.go lines 244-260): claims carry the
id and email of the user, expiry now + 72 hours, issued-at now; signed
HS256 with the secret held by the handler. -/
def generateJWT (u : User) (jwtSecret : String) (now : Int) : SignedToken :=
  { userID := u.id, email := u.email,
    expiresAt := now + 72 * 3600, issuedAt := now, secret := jwtSecret }

/-- token.SignedString: the compact JWS serialization, abstracted to a
string determined by the token contents (always starts with the
base64 header, hence non-empty). -/
def signedString (t : SignedToken) : String :=
  "eyJ." ++ toString t.userID ++ "." ++ t.email ++ "."
    ++ toString t.issuedAt ++ "." ++ toString t.expiresAt ++ "." ++ t.secret

/-- golang-jwt v4 error values as Go interface values: the package-level
sentinel jwt.ErrSignatureInvalid, and the freshly allocated
jwt.ValidationError values that ParseWithClaims actually returns (with
their Errors bit flags). Go == on error interfaces is identity, so a
ValidationError returned by the parser is never == the sentinel. -/
inductive JwtErr where
  | errSignatureInvalid
  | validationError (expired malformed sigInvalid iatInvalid : Bool)
  deriving Repr, DecidableEq

/-- The comparison err == jwt.ErrSignatureInvalid (jwt_auth.go line 44):
Go interface identity against the package sentinel. -/
def isSentinelSignatureInvalid : JwtErr → Bool
  | .errSignatureInvalid => true
  | _ => false

/-- Input to token parsing: a structurally malformed token string, or a
well-formed HS256 token. -/
inductive TokenInput where
  | malformed
  | wf (t : SignedToken)
  deriving Repr, DecidableEq

/-- jwt.ParseWithClaims with the HS256 keyfunc (jwt_auth.go lines
36-41): structural parse, v4 RegisteredClaims.Valid (valid while now is
strictly before the expiry; issued-at must not be in the future), and
HMAC signature verification against the configured secret. Every failure
is returned as a fresh ValidationError with the corresponding bits set,
never as the bare sentinel. -/
def parseWithClaims (jwtSecret : String) (now : Int) :
    TokenInput → Except JwtErr JwtCustomClaims
  | .malformed => .error (.validationError false true false false)
  | .wf t =>
    let expired : Bool := decide (t.expiresAt ≤ now)
    let iatBad : Bool := decide (now < t.issuedAt)
    let sigBad : Bool := t.secret != jwtSecret
    if expired || iatBad || sigBad then
      .error (.validationError expired false sigBad iatBad)
    else
      .ok { userID := t.userID, email := t.email,
            expiresAt := t.expiresAt, issuedAt := t.issuedAt }

/-- An echo HTTPError: status code and message. -/
structure HttpErr where
  status : Nat
  message : String
  deriving Repr, DecidableEq

/-- middleware.JWTAuthMiddleware verification step (jwt_auth.go lines
35-52): ParseWithClaims, then the error mapping — the dedicated
"Invalid token signature" branch fires only when err == the sentinel
jwt.ErrSignatureInvalid, otherwise the generic "Invalid token". On
success the parsed claims are handed on. -/
def jwtVerify (jwtSecret : String) (now : Int) (tok : TokenInput) :
    Except HttpErr JwtCustomClaims :=
  match parseWithClaims jwtSecret now tok with
  | .error e =>
    if isSentinelSignatureInvalid e then
      .error { status := 401, message := "Invalid token signature" }
    else
      .error { status := 401, message := "Invalid token" }
  | .ok claims => .ok claims

/-- A value stored in the echo request context. -/
inductive CtxVal where
  | claimsVal (c : JwtCustomClaims)
  | uintVal (n : Nat)
  | strVal (s : String)
  deriving Repr, DecidableEq

/-- The echo request-scoped context: string-keyed values; Set shadows
earlier entries, Get returns the most recent value under a key. -/
abbrev Ctx := List (String × CtxVal)

/-- echo Context.Set. -/
def ctxSet (c : Ctx) (k : String) (v : CtxVal) : Ctx :=
  (k, v) :: c

/-- echo Context.Get. -/
def ctxGet (c : Ctx) (k : String) : Option CtxVal :=
  (c.find? (fun p => p.1 == k)).map Prod.snd

/-- jwt_auth.go line 55, the success path of the middleware:
c.Set("user", claims) before invoking the downstream handler. -/
def jwtAuthInject (ctx : Ctx) (claims : JwtCustomClaims) : Ctx :=
  ctxSet ctx "user" (.claimsVal claims)

/-- handlers.getUserIDFromContext: type-asserted read of "user_claims"
(as JwtCustomClaims), then of "user_id" (as uint), returning 0 when
neither assertion succeeds. -/
def getUserIDFromContext (ctx : Ctx) : Nat :=
  match ctxGet ctx "user_claims" with
  | some (.claimsVal c) => c.userID
  | _ =>
    match ctxGet ctx "user_id" with
    | some (.uintVal n) => n
    | _ => 0

/-- models.CreateLocalUserRequest: the bound and validated signup body. -/
structure CreateLocalUserRequest where
  name : String
  email : String
  age : Int
  password : String
  deriving Repr, DecidableEq

/-- bcrypt.DefaultCost. -/
def bcryptDefaultCost : Nat := 10

/-- bcrypt.GenerateFromPassword, modelled as a deterministic injective
tag of cost and password; only the relation "the stored value is the
hash of this password" is relied upon. -/
def bcryptGenerateFromPassword (cost : Nat) (password : String) : String :=
  "bcrypt2a" ++ toString cost ++ "-" ++ password

/-- bcrypt.CompareHashAndPassword: true exactly when the stored hash was
produced from this password. -/
def bcryptCompareHashAndPassword (hash password : String) : Bool :=
  hash == bcryptGenerateFromPassword bcryptDefaultCost password

/-- A JSON value in a handler response body. -/
inductive JsonVal where
  | str (s : String)
  | userObj (u : User)
  deriving Repr, DecidableEq

/-- A JSON object response body. -/
abbrev Body := List (String × JsonVal)

/-- A handler result: a JSON response or an echo HTTPError. -/
inductive HandlerResult where
  | json (status : Nat) (body : Body)
  | httpError (status : Nat) (message : String)
  deriving Repr, DecidableEq

/-- Whether a JSON body has an entry under the given key. -/
def bodyHasKey (b : Body) (k : String) : Bool :=
  b.any (fun p => p.1 == k)

/-- Whether a handler result is a JSON response whose body has the key. -/
def resultBodyHasKey (r : HandlerResult) (k : String) : Bool :=
  match r with
  | .json _ body => bodyHasKey body k
  | .httpError _ _ => false

/-- The HTTP status of a handler result. -/
def resultStatus : HandlerResult → Nat
  | .json st _ => st
  | .httpError st _ => st

/-- The duplicate-key error text a Postgres unique-index violation
surfaces through err.Error() (constraint name elided), which Signup
passes into its 500 response at auth.go line 113. -/
def duplicateKeyError : String := "duplicate key value violates unique constraint"

/-- handlers.Signup (auth.go lines 81-123) after bind and validation,
against the Postgres store: 409 when a user with the email exists;
otherwise hash the password with bcrypt and INSERT the user — the row
carries the Go zero value of FirebaseUID, the empty string, so under the
unique firebase_uid index the INSERT fails with a duplicate-key 500
whenever some stored row already carries the empty uid; on a committed
INSERT answer 201 with a body holding only the freshly signed token. -/
def signup (req : CreateLocalUserRequest) (jwtSecret : String) (now : Int)
    (s : Store) : HandlerResult × Store :=
  match getUserByEmail s req.email with
  | some _ => (.httpError 409 "User with this email already registered", s)
  | none =>
    let hashed := bcryptGenerateFromPassword bcryptDefaultCost req.password
    match createUserPg s
        { id := 0, name := req.name, email := req.email, age := req.age,
          password := hashed, firebaseUID := "", followersCount := 0,
          followingCount := 0, postsCount := 0 } with
    | .error _ => (.httpError 500 duplicateKeyError, s)
    | .ok c =>
      (.json 201 [("token", .str (signedString (generateJWT c.1 jwtSecret now)))], c.2)

/-- handlers.SignIn (auth.go lines 126-158) after bind and validation:
401 with a user-not-found message naming the submitted email when the
lookup fails, 401 "Invalid password" when the bcrypt comparison fails,
otherwise 200 with the signed token. -/
def signIn (email password : String) (jwtSecret : String) (now : Int)
    (s : Store) : HandlerResult :=
  match getUserByEmail s email with
  | none => .httpError 401 ("User not found wiht email : " ++ email)
  | some user =>
    if bcryptCompareHashAndPassword user.password password then
      .json 200 [("token", .str (signedString (generateJWT user jwtSecret now)))]
    else
      .httpError 401 "Invalid password"

/-- A counter maintenance call on PostgresUserRepository. -/
inductive CounterOp where
  | incFollowers (uid : Nat)
  | decFollowers (uid : Nat)
  | incFollowing (uid : Nat)
  | decFollowing (uid : Nat)
  | incPosts (uid : Nat)
  | decPosts (uid : Nat)
  deriving Repr, DecidableEq

/-- user_repository.go lines 101-123: UPDATE users SET count = count + 1
WHERE id = ? for increments; UPDATE users SET count = count - 1
WHERE id = ? AND count > 0 for decrements. -/
def applyCounterOp (op : CounterOp) (s : Store) : Store :=
  match op with
  | .incFollowers uid =>
    s.map (fun u => if u.id == uid then
      { u with followersCount := u.followersCount + 1 } else u)
  | .decFollowers uid =>
    s.map (fun u => if u.id == uid ∧ 0 < u.followersCount then
      { u with followersCount := u.followersCount - 1 } else u)
  | .incFollowing uid =>
    s.map (fun u => if u.id == uid then
      { u with followingCount := u.followingCount + 1 } else u)
  | .decFollowing uid =>
    s.map (fun u => if u.id == uid ∧ 0 < u.followingCount then
      { u with followingCount := u.followingCount - 1 } else u)
  | .incPosts uid =>
    s.map (fun u => if u.id == uid then
      { u with postsCount := u.postsCount + 1 } else u)
  | .decPosts uid =>
    s.map (fun u => if u.id == uid ∧ 0 < u.postsCount then
      { u with postsCount := u.postsCount - 1 } else u)

/-- A sequence of counter maintenance calls, applied left to right. -/
def applyCounterOps (ops : List CounterOp) (s : Store) : Store :=
  ops.foldl (fun s op => applyCounterOp op s) s

/-- All three denormalized counters of a user row are non-negative. -/
def countersNonneg (u : User) : Prop :=
  0 ≤ u.followersCount ∧ 0 ≤ u.followingCount ∧ 0 ≤ u.postsCount

instance (u : User) : Decidable (countersNonneg u) := by
  unfold countersNonneg
  infer_instance

/-- A fixed locally registered user row, used as a concrete store row. -/
def annRow : User :=
  { id := 1, name := "Ann", email := "ann@x.com", age := 20,
    password := bcryptGenerateFromPassword bcryptDefaultCost "password123",
    firebaseUID := "", followersCount := 3, followingCount := 2, postsCount := 1 }

/-- A second user row, externally linked, for concrete instantiations. -/
def bobRow : User :=
  { id := 2, name := "Bob", email := "bob@x.com", age := 30,
    password := "", firebaseUID := "sub1", followersCount := 0,
    followingCount := 0, postsCount := 0 }

/-- The row FirebaseLogin creates on an empty store for subject id
"sub1" with verified email "new@x.com" and no name claim. -/
def subRow : User :=
  { id := 1, name := "", email := "new@x.com", age := 0, password := "",
    firebaseUID := "sub1", followersCount := 0, followingCount := 0,
    postsCount := 0 }

/-- A signup request reusing an already-registered email. -/
def annDupReq : CreateLocalUserRequest :=
  { name := "Bea", email := "ann@x.com", age := 21, password := "hunter22" }

/-- A signup request with a fresh email. -/
def beaReq : CreateLocalUserRequest :=
  { name := "Bea", email := "bea@x.com", age := 21, password := "hunter22" }

theorem find?_map_replace_found (l : List User) (p : User → Bool) (a a' : User)
    (h : l.find? p = some a) (hp : p a' = true) (hid : a'.id = a.id) :
    (l.map (fun v => if v.id == a'.id then a' else v)).find? p = some a' := by
  induction l with
  | nil => simp at h
  | cons x t ih =>
    by_cases hpx : p x = true
    · rw [List.find?_cons_of_pos _ hpx] at h
      injection h with h
      subst h
      have hxid : (x.id == a'.id) = true := by simp [hid]
      simp only [List.map_cons, hxid, if_true]
      exact List.find?_cons_of_pos _ hp
    · rw [List.find?_cons_of_neg _ hpx] at h
      simp only [List.map_cons]
      by_cases hxid : x.id = a'.id
      · simp only [hxid, beq_self_eq_true, if_true]
        exact List.find?_cons_of_pos _ hp
      · have : (x.id == a'.id) = false := by simp [hxid]
        simp only [this, Bool.false_eq_true, if_false]
        rw [List.find?_cons_of_neg _ hpx]
        exact ih h

theorem find?_map_replace_none (l : List User) (p : User → Bool) (b b' : User)
    (hnone : l.find? p = none) (hb : b ∈ l) (hp : p b' = true) (hid : b'.id = b.id) :
    (l.map (fun v => if v.id == b'.id then b' else v)).find? p = some b' := by
  induction l with
  | nil => simp at hb
  | cons x t ih =>
    have hpx : ¬ p x = true := by
      intro hc
      rw [List.find?_cons_of_pos _ hc] at hnone
      exact Option.some_ne_none x hnone
    rw [List.find?_cons_of_neg _ hpx] at hnone
    simp only [List.map_cons]
    by_cases hxid : x.id = b'.id
    · simp only [hxid, beq_self_eq_true, if_true]
      exact List.find?_cons_of_pos _ hp
    · have hxf : (x.id == b'.id) = false := by simp [hxid]
      simp only [hxf, Bool.false_eq_true, if_false]
      rw [List.find?_cons_of_neg _ hpx]
      have hbt : b ∈ t := by
        rcases List.mem_cons.mp hb with hbx | hbt
        · exact absurd (hid.trans (congrArg User.id hbx)).symm hxid
        · exact hbt
      exact ih hnone hbt

theorem find?_append_singleton (l : List User) (p : User → Bool) (u : User)
    (hnone : l.find? p = none) (hp : p u = true) :
    (l ++ [u]).find? p = some u := by
  rw [List.find?_append, hnone]
  simp [List.find?_cons_of_pos _ hp]

/-- After any run of the reconciliation block, the lookup by firebase uid
finds exactly the resolved user: every branch leaves the resolved row
carrying the claimed uid, first in uid-lookup order. -/
theorem reconcile_finds_resolved (uid email name : String) (s : Store) :
    getUserByFirebaseUID (reconcile uid email name s).2.2 uid
      = some (reconcile uid email name s).2.1 := by
  unfold reconcile
  cases ha : getUserByFirebaseUID s uid with
  | some a =>
    have ha' : s.find? (fun u => u.firebaseUID == uid) = some a := ha
    have hpa : (a.firebaseUID == uid) = true := by
      have := List.find?_some ha'
      simpa using this
    simp only []
    unfold getUserByFirebaseUID updateUser
    exact find?_map_replace_found s _ a _ ha hpa rfl
  | none =>
    cases hb : getUserByEmail s email with
    | some b =>
      have hbm : b ∈ s := List.mem_of_find?_eq_some hb
      simp only []
      unfold getUserByFirebaseUID updateUser
      exact find?_map_replace_none s _ b _ ha hbm (by simp) rfl
    | none =>
      simp only []
      unfold getUserByFirebaseUID createUser
      exact find?_append_singleton s _ _ ha (by simp)

/-- C1: the middleware stores the verified claims under context key
"user" (jwt_auth.go line 55), but getUserIDFromContext reads only the
keys "user_claims" and "user_id"; on a fresh request context the
downstream handler therefore observes user id 0 — the unauthenticated
value — for every verified token, never the user id of the token. -/
theorem jwt_context_identity_lost (claims : JwtCustomClaims) :
    getUserIDFromContext (jwtAuthInject [] claims) = 0 := rfl

/-- C3: verifying a token immediately after issuance, with the same
signing secret, succeeds and returns exactly the claims embedded at
issuance — the id and email of the user, expiry 72 hours out. -/
theorem issue_then_verify_roundtrip (u : User) (jwtSecret : String) (now : Int) :
    jwtVerify jwtSecret now (.wf (generateJWT u jwtSecret now)) =
      .ok { userID := u.id, email := u.email,
            expiresAt := now + 72 * 3600, issuedAt := now } := by
  unfold jwtVerify parseWithClaims generateJWT
  have h1 : ¬ (now + 72 * 3600 ≤ now) := by omega
  have h2 : ¬ (now < now) := lt_irrefl now
  simp [h1, h2]

/-- C4 (divergence witness): a well-formed, unexpired token signed under
a different secret is rejected with the generic "Invalid token" message,
not "Invalid token signature": ParseWithClaims returns a freshly
allocated ValidationError, so the comparison in the middleware
err == jwt.ErrSignatureInvalid never fires. -/
theorem wrong_secret_generic_error (u : User) (signSecret verifySecret : String)
    (now : Int) (hne : signSecret ≠ verifySecret) :
    jwtVerify verifySecret now (.wf (generateJWT u signSecret now)) =
      .error { status := 401, message := "Invalid token" } := by
  unfold jwtVerify parseWithClaims generateJWT
  have h1 : ¬ (now + 72 * 3600 ≤ now) := by omega
  have h2 : ¬ (now < now) := lt_irrefl now
  simp [h1, h2, hne, isSentinelSignatureInvalid]

theorem wrong_secret_generic_error_check :
    jwtVerify "supersecretjwtkey" 0 (.wf (generateJWT annRow "othersecret" 0)) =
      .error { status := 401, message := "Invalid token" } :=
  wrong_secret_generic_error annRow "othersecret" "supersecretjwtkey" 0 (by decide)

/-- C9: the claim extraction in FirebaseLogin is an unguarded type assertion:
on a verified token whose claims map has no "email" entry, or a
non-string one, the handler panics instead of returning an error
response, for every store state. -/
theorem missing_email_claim_panics (s : Store) :
    firebaseLogin { uid := "sub1", claims := [] } s = (.panicked, s)
    ∧ firebaseLogin { uid := "sub1", claims := [("email", ClaimVal.num 5)] } s
      = (.panicked, s) :=
  ⟨rfl, rfl⟩

/-- C8 counterexample: in the no-match case with no name claim, the
created user has the empty string as display name, not the subject id
"sub1" the claim asserts it defaults to. -/
theorem created_user_name_not_subject_id :
    (firebaseLogin { uid := "sub1", claims := [("email", ClaimVal.str "new@x.com")] } []).1
      = .ok .created { id := 1, name := "", email := "new@x.com", age := 0,
                       password := "", firebaseUID := "sub1", followersCount := 0,
                       followingCount := 0, postsCount := 0 }
    ∧ ("" : String) ≠ "sub1" :=
  ⟨rfl, by decide⟩

/-- C7 counterexample: the 401 body for an unknown email names the
submitted email and differs from the 401 body for a known email with a
wrong password, so the response does reveal whether the email existed. -/
theorem signin_bodies_reveal_email_existence :
    signIn "bob@x.com" "password123" "supersecretjwtkey" 0 [annRow]
      = .httpError 401 "User not found wiht email : bob@x.com"
    ∧ signIn "ann@x.com" "wrongpass" "supersecretjwtkey" 0 [annRow]
      = .httpError 401 "Invalid password"
    ∧ ("User not found wiht email : bob@x.com" : String) ≠ "Invalid password" :=
  ⟨rfl, rfl, by decide⟩

/-- C5: reconciliation is idempotent — whenever FirebaseLogin resolves a
user, running it again with the same verified token against the
resulting store takes the existing-link (subject-id) branch, resolves
the same user id, and creates no additional row. -/
theorem firebase_login_idempotent (tok : FirebaseToken) (s s1 : Store)
    (b1 : Branch) (u1 : User)
    (h : firebaseLogin tok s = (.ok b1 u1, s1)) :
    ∃ u2 s2, firebaseLogin tok s1 = (.ok .byUID u2, s2)
      ∧ u2.id = u1.id ∧ s2.length = s1.length := by
  unfold firebaseLogin at h ⊢
  cases he : goAssertString (claimsLookup tok.claims "email") with
  | none =>
    rw [he] at h
    exact absurd (congrArg Prod.fst h) (by simp)
  | some email =>
    rw [he] at h
    simp only [] at h ⊢
    have hres := reconcile_finds_resolved tok.uid email
      (match goAssertString (claimsLookup tok.claims "name") with
        | some n => n | none => "") s
    have hu1 : (reconcile tok.uid email
        (match goAssertString (claimsLookup tok.claims "name") with
          | some n => n | none => "") s).2.1 = u1 := by
      have := congrArg Prod.fst h
      simp at this
      exact this.2
    have hs1 : (reconcile tok.uid email
        (match goAssertString (claimsLookup tok.claims "name") with
          | some n => n | none => "") s).2.2 = s1 := congrArg Prod.snd h
    rw [hu1, hs1] at hres
    simp only [reconcile, hres]
    refine ⟨_, _, rfl, rfl, by simp [updateUser]⟩

theorem firebase_login_idempotent_check :
    ∃ u2 s2,
      firebaseLogin { uid := "sub1", claims := [("email", ClaimVal.str "new@x.com")] }
          [subRow] = (.ok .byUID u2, s2)
      ∧ u2.id = subRow.id ∧ s2.length = ([subRow] : Store).length :=
  firebase_login_idempotent _ [] [subRow] .created subRow rfl

/-- C8 (amended): in the no-match case, the display name of the created user
defaults to the empty string (not the subject id) when the claim carries
no usable name; its email and subject id come from the claim, its age is
0 and its password hash is unset. -/
theorem no_match_creates_empty_name (tok : FirebaseToken) (s : Store) (email : String)
    (he : goAssertString (claimsLookup tok.claims "email") = some email)
    (hn : goAssertString (claimsLookup tok.claims "name") = none)
    (hu : getUserByFirebaseUID s tok.uid = none)
    (hm : getUserByEmail s email = none) :
    firebaseLogin tok s =
      (.ok .created { id := nextId s, name := "", email := email, age := 0,
                      password := "", firebaseUID := tok.uid,
                      followersCount := 0, followingCount := 0, postsCount := 0 },
       s ++ [{ id := nextId s, name := "", email := email, age := 0,
               password := "", firebaseUID := tok.uid, followersCount := 0,
               followingCount := 0, postsCount := 0 }]) := by
  unfold firebaseLogin
  rw [he, hn]
  simp only [reconcile, hu, hm, createUser]

theorem no_match_creates_empty_name_check :
    firebaseLogin { uid := "sub1", claims := [("email", ClaimVal.str "new@x.com")] } [] =
      (.ok .created { id := nextId [], name := "", email := "new@x.com", age := 0,
                      password := "", firebaseUID := "sub1",
                      followersCount := 0, followingCount := 0, postsCount := 0 },
       [] ++ [{ id := nextId [], name := "", email := "new@x.com", age := 0,
                password := "", firebaseUID := "sub1", followersCount := 0,
                followingCount := 0, postsCount := 0 }]) :=
  no_match_creates_empty_name _ [] "new@x.com" rfl rfl rfl rfl

/-- The compact JWS serialization is never the empty string. -/
theorem signedString_ne_empty (t : SignedToken) : signedString t ≠ "" := by
  intro h
  have hlen := congrArg String.length h
  simp only [signedString, String.length_append] at hlen
  have h4 : ("eyJ." : String).length = 4 := rfl
  have h0 : ("" : String).length = 0 := rfl
  rw [h4, h0] at hlen
  omega

/-- C7 (amended): the two 401 sign-in bodies are distinguishable — an
unknown email yields a not-found message that names the submitted email,
while a known email with a mismatching password yields the fixed
"Invalid password" message; the two bodies always differ, so the
response does reveal whether the email existed. -/
theorem signin_distinct_unauthorized_bodies (email password jwtSecret : String)
    (now : Int) (s : Store) :
    (getUserByEmail s email = none →
      signIn email password jwtSecret now s
        = .httpError 401 ("User not found wiht email : " ++ email))
    ∧ (∀ u, getUserByEmail s email = some u →
        bcryptCompareHashAndPassword u.password password = false →
        signIn email password jwtSecret now s = .httpError 401 "Invalid password")
    ∧ ("User not found wiht email : " ++ email) ≠ "Invalid password" := by
  refine ⟨?_, ?_, ?_⟩
  · intro h
    unfold signIn
    rw [h]
  · intro u hu hpw
    unfold signIn
    rw [hu]
    simp [hpw]
  · intro h
    have hlen := congrArg String.length h
    simp only [String.length_append] at hlen
    have h1 : ("User not found wiht email : " : String).length = 28 := rfl
    have h2 : ("Invalid password" : String).length = 16 := rfl
    rw [h1, h2] at hlen
    omega

theorem signin_distinct_unauthorized_bodies_check :
    signIn "bob@x.com" "password123" "supersecretjwtkey" 0 [annRow]
      = .httpError 401 ("User not found wiht email : " ++ "bob@x.com")
    ∧ signIn "ann@x.com" "wrongpass" "supersecretjwtkey" 0 [annRow]
      = .httpError 401 "Invalid password" :=
  ⟨(signin_distinct_unauthorized_bodies "bob@x.com" "password123"
      "supersecretjwtkey" 0 [annRow]).1 rfl,
   (signin_distinct_unauthorized_bodies "ann@x.com" "wrongpass"
      "supersecretjwtkey" 0 [annRow]).2.1 annRow rfl rfl⟩

/-- A single repository counter call keeps the counters of every row
non-negative: increments add one; decrements subtract one only under the
strict-positivity guard of their SQL WHERE clause. -/
theorem applyCounterOp_nonneg (op : CounterOp) (s : Store)
    (h : ∀ u ∈ s, countersNonneg u) :
    ∀ u ∈ applyCounterOp op s, countersNonneg u := by
  intro u hu
  cases op <;>
    (simp only [applyCounterOp, List.mem_map] at hu
     obtain ⟨v, hv, rfl⟩ := hu
     have hv' := h v hv
     unfold countersNonneg at hv' ⊢
     split <;> first
       | omega
       | (dsimp only; omega))

/-- C10: for every sequence of repository counter calls starting from a
store whose followers, following and posts counts are non-negative, all
three counters stay non-negative, because the decrement operations only
subtract under the strictly-positive guard. -/
theorem counter_decrements_keep_nonneg (ops : List CounterOp) (s : Store)
    (h : ∀ u ∈ s, countersNonneg u) :
    ∀ u ∈ applyCounterOps ops s, countersNonneg u := by
  induction ops generalizing s with
  | nil => exact h
  | cons op rest ih =>
    exact fun u hu => ih (applyCounterOp op s) (applyCounterOp_nonneg op s h) u hu

theorem counter_decrements_keep_nonneg_check :
    (∀ u ∈ ([annRow] : Store), countersNonneg u)
    ∧ ∀ u ∈ applyCounterOps
        [CounterOp.decFollowers 1, CounterOp.decPosts 1, CounterOp.decPosts 1,
         CounterOp.incFollowers 1] [annRow], countersNonneg u :=
  ⟨by decide, counter_decrements_keep_nonneg _ [annRow] (by decide)⟩

/-- Every id stored in the table is at most the running maximum. -/
theorem id_le_maxId (v : User) :
    ∀ s : Store, v ∈ s → v.id ≤ (s.map User.id).foldr max 0 := by
  intro s
  induction s with
  | nil =>
    intro hv
    simp at hv
  | cons x t ih =>
    intro hv
    simp only [List.map_cons, List.foldr_cons]
    rcases List.mem_cons.mp hv with h | h
    · subst h
      exact le_max_left _ _
    · exact le_trans (ih h) (le_max_right _ _)

/-- A stored row never carries the fresh auto-increment id. -/
theorem id_ne_nextId (s : Store) (v : User) (hv : v ∈ s) : v.id ≠ nextId s := by
  have hle := id_le_maxId v s hv
  unfold nextId
  omega

/-- C2 counterexample: bobRow holds the subject id and annRow holds the
claimed email; FirebaseLogin takes the subject-id branch, but refreshing
the email of bobRow to the email of annRow violates the unique email
index, so the handler answers 500 with the store unchanged — it does not
resolve to bobRow (User A). -/
theorem subject_id_conflict_counterexample :
    firebaseLoginPg { uid := "sub1", claims := [("email", ClaimVal.str "ann@x.com")] }
        [bobRow, annRow]
      = (.httpError 500 "Failed to update user details", [bobRow, annRow]) := rfl

/-- C2 (amended): when the subject id of the claim matches user A and
the claimed email belongs to a different user B, FirebaseLogin checks
the subject id first and takes that branch — the email branch is never
consulted, B is not mutated and no row is created — but it does not
resolve to A: refreshing the email of A to the email of B violates the
unique email index, UpdateUser fails, and the handler answers 500
"Failed to update user details" leaving the store unchanged. -/
theorem subject_id_conflict_update_fails (tok : FirebaseToken) (s : Store)
    (email : String) (a b : User)
    (he : goAssertString (claimsLookup tok.claims "email") = some email)
    (ha : getUserByFirebaseUID s tok.uid = some a)
    (hb : getUserByEmail s email = some b)
    (hab : a.id ≠ b.id) :
    firebaseLoginPg tok s = (.httpError 500 "Failed to update user details", s) := by
  unfold firebaseLoginPg
  rw [he]
  simp only [ha]
  have hbm : b ∈ s := List.mem_of_find?_eq_some hb
  have hb' : s.find? (fun u => u.email == email) = some b := hb
  have hbe : (b.email == email) = true := by
    have := List.find?_some hb'
    simpa using this
  have htaken : emailTaken s a.id email = true := by
    unfold emailTaken
    rw [List.any_eq_true]
    refine ⟨b, hbm, ?_⟩
    simp [hbe]
    exact fun h => hab h.symm
  unfold updateUserPg
  simp [htaken]

theorem subject_id_conflict_update_fails_check :
    firebaseLoginPg { uid := "sub1", claims := [("email", ClaimVal.str "ann@x.com")] }
        [annRow, bobRow]
      = (.httpError 500 "Failed to update user details", [annRow, bobRow]) :=
  subject_id_conflict_update_fails _ [annRow, bobRow] "ann@x.com" bobRow annRow
    rfl rfl rfl (by decide)

/-- C6 counterexample: a committed signup answers 201 with no user
object in its body; and with annRow stored (a local-signup row, so it
carries the empty firebase uid), a signup for a fresh email does not
answer 201 at all — its INSERT collides with the unique firebase_uid
index and the handler answers 500. -/
theorem signup_claim_counterexample :
    resultStatus (signup beaReq "supersecretjwtkey" 0 []).1 = 201
    ∧ resultBodyHasKey (signup beaReq "supersecretjwtkey" 0 []).1 "user" = false
    ∧ getUserByEmail [annRow] beaReq.email = none
    ∧ (signup beaReq "supersecretjwtkey" 0 [annRow]).1
        = .httpError 500 duplicateKeyError :=
  ⟨rfl, rfl, rfl, rfl⟩

/-- C6 (amended): signup answers 409 when a user with the requested
email exists; otherwise it INSERTs a user carrying the bcrypt hash of
the request password and the empty firebase uid — when no stored row has
the empty firebase uid the INSERT commits and the handler answers 201
with a body holding a non-empty token and no user object; when some
stored row already has the empty firebase uid (any earlier local
signup), the INSERT violates the unique firebase_uid index and the
handler answers 500 with the duplicate-key error. -/
theorem signup_conflict_token_or_duplicate (req : CreateLocalUserRequest)
    (jwtSecret : String) (now : Int) (s : Store) :
    ((∃ u, getUserByEmail s req.email = some u) →
      (signup req jwtSecret now s).1
        = .httpError 409 "User with this email already registered")
    ∧ (getUserByEmail s req.email = none →
      (∀ v ∈ s, v.firebaseUID ≠ "") →
      ∃ u, signup req jwtSecret now s
          = (.json 201 [("token", .str (signedString (generateJWT u jwtSecret now)))],
             s ++ [u])
        ∧ u.email = req.email
        ∧ u.password = bcryptGenerateFromPassword bcryptDefaultCost req.password
        ∧ signedString (generateJWT u jwtSecret now) ≠ ""
        ∧ resultBodyHasKey (signup req jwtSecret now s).1 "user" = false)
    ∧ (getUserByEmail s req.email = none →
      (∃ v ∈ s, v.firebaseUID = "") →
      (signup req jwtSecret now s).1 = .httpError 500 duplicateKeyError) := by
  have hmail : getUserByEmail s req.email = none →
      emailTaken s (nextId s) req.email = false := by
    intro hnone
    have hnone' : s.find? (fun u => u.email == req.email) = none := hnone
    unfold emailTaken
    rw [List.any_eq_false]
    intro v hv
    have hvmail := List.find?_eq_none.mp hnone' v hv
    simp at hvmail
    simp [hvmail]
  refine ⟨?_, ?_, ?_⟩
  · rintro ⟨u, hu⟩
    unfold signup
    rw [hu]
  · intro hnone hclean
    have huid : uidTaken s (nextId s) "" = false := by
      unfold uidTaken
      rw [List.any_eq_false]
      intro v hv
      simp [hclean v hv]
    refine ⟨{ id := nextId s, name := req.name, email := req.email, age := req.age,
              password := bcryptGenerateFromPassword bcryptDefaultCost req.password,
              firebaseUID := "", followersCount := 0, followingCount := 0,
              postsCount := 0 }, ?_, rfl, rfl, signedString_ne_empty _, ?_⟩
    · unfold signup
      rw [hnone]
      unfold createUserPg
      simp [hmail hnone, huid]
    · unfold signup
      rw [hnone]
      unfold createUserPg
      simp [hmail hnone, huid, resultBodyHasKey, bodyHasKey]
  · rintro hnone ⟨v, hv, hvuid⟩
    have huid : uidTaken s (nextId s) "" = true := by
      unfold uidTaken
      rw [List.any_eq_true]
      refine ⟨v, hv, ?_⟩
      simp [hvuid]
      exact id_ne_nextId s v hv
    unfold signup
    rw [hnone]
    unfold createUserPg
    simp [huid]

theorem signup_conflict_token_or_duplicate_check :
    (signup annDupReq "supersecretjwtkey" 0 [annRow]).1
      = .httpError 409 "User with this email already registered"
    ∧ (∃ u, signup beaReq "supersecretjwtkey" 0 [subRow]
        = (.json 201 [("token", .str (signedString (generateJWT u "supersecretjwtkey" 0)))],
           [subRow] ++ [u])
      ∧ u.email = beaReq.email
      ∧ u.password = bcryptGenerateFromPassword bcryptDefaultCost beaReq.password
      ∧ signedString (generateJWT u "supersecretjwtkey" 0) ≠ ""
      ∧ resultBodyHasKey (signup beaReq "supersecretjwtkey" 0 [subRow]).1 "user" = false)
    ∧ (signup beaReq "supersecretjwtkey" 0 [annRow]).1
        = .httpError 500 duplicateKeyError :=
  ⟨(signup_conflict_token_or_duplicate annDupReq "supersecretjwtkey" 0 [annRow]).1
      ⟨annRow, rfl⟩,
   (signup_conflict_token_or_duplicate beaReq "supersecretjwtkey" 0 [subRow]).2.1
      rfl (by decide),
   (signup_conflict_token_or_duplicate beaReq "supersecretjwtkey" 0 [annRow]).2.2
      rfl ⟨annRow, by decide, rfl⟩⟩
